import Mathlib

/-!
Verification development for the pause/resume control loop of
`pydantic-graph-interrupt`.

The embedding translates the interrupt-handling layer of the repository
(`graph.py`, `nodes.py`, `base_interrupt.py`) into executable Lean
definitions.  The underlying `pydantic_graph` engine (node dispatch,
persistence backends) is an external collaborator and enters the model
only through parameters: the single-step primitive is a function
argument, and a persistence object is represented by the value its
`load_next()` call would return.
-/

namespace PGI

/-- Abstraction of Python field values stored on a node instance.
`unset` is the process-wide `UNSET` sentinel (`pydantic_graph._utils.UNSET`);
the Python check `value is UNSET` is an identity test against that unique
singleton, so it is modelled as equality with the `unset` constructor.
`pynone` is Python `None`; `listLen n` abstracts a list value by its length
(`listLen 0` is the empty list), which keeps equality decidable while still
distinguishing empty collections from the sentinel. -/
inductive Value where
  | unset
  | pynone
  | int (n : Int)
  | str (s : String)
  | boolean (b : Bool)
  | listLen (n : Nat)
  deriving DecidableEq, Repr

/-- A node instance as seen by the control loop in `graph.py`.

`isInterrupt` models the capability test `isinstance(node, InterruptNode)`;
`isDataclass` models `dataclasses.is_dataclass(self)`; `fields` holds the
declared dataclass fields with their current values (what
`fields(self)` + `getattr` traverses); `dict` holds the instance
`__dict__` (what `vars(self)` traverses); `snapshotId` is the id stamped
by `set_snapshot_id`.  `name` is the class name used in error messages. -/
structure Node where
  name : String
  isInterrupt : Bool
  isDataclass : Bool
  fields : List (String × Value)
  dict : List (String × Value)
  snapshotId : Option String
  deriving DecidableEq, Repr

/-- `InterruptNode.unset_attrs` (nodes.py lines 41-59): names of attributes
whose value is the `UNSET` sentinel.  Dataclass instances iterate the
declared fields; other instances fall back to the instance `__dict__`. -/
def Node.unset_attrs (n : Node) : List String :=
  if n.isDataclass then
    (n.fields.filter fun p => p.2 == Value.unset).map Prod.fst
  else
    (n.dict.filter fun p => p.2 == Value.unset).map Prod.fst

/-- `BaseNode.set_snapshot_id` (engine side): stamps a loaded node with its
originating snapshot's identity token (graph.py line 207). -/
def Node.set_snapshot_id (n : Node) (i : String) : Node :=
  { n with snapshotId := some i }

/-- The declared-field / attribute source `unset_attrs` inspects, written
from the spec's description of unset-field introspection (used only in
theorem statements, to compare against the source-translated function). -/
def Node.attrSource (n : Node) : List (String × Value) :=
  if n.isDataclass then n.fields else n.dict

/-- A persistence snapshot: the next node to execute, the run state and the
snapshot identity token (`pydantic_graph` persistence contract). -/
structure Snapshot (σ : Type) where
  node : Node
  state : σ
  id : String
  deriving DecidableEq, Repr

/-- The failures `resume` can raise.  In the source all three are raised as
`pydantic_graph.exceptions.GraphRuntimeError` and are distinguished by
their messages; the constructors record the distinguishing data. -/
inductive ResumeError where
  | configuration (msg : String)
  | recovery (msg : String)
  | resumption (className : String) (attrs : List String)
  deriving DecidableEq, Repr

/-- Message of the configuration error (graph.py line 198). -/
def configurationMessage : String :=
  "Either `persistence` or `from_node` must be provided."

/-- Message of the recovery error (graph.py line 204). -/
def recoveryMessage : String :=
  "Unable to restore snapshot from state persistence."

/-- Message of the resumption error (graph.py lines 213-217). -/
def resumptionMessage (className : String) (attrs : List String) : String :=
  "Cannot resume graph from InterruptNode " ++ className ++
    " because of unset attributes: " ++ String.intercalate ", " attrs

/-- The message the raised `GraphRuntimeError` carries. -/
def ResumeError.message : ResumeError → String
  | .configuration m => m
  | .recovery m => m
  | .resumption cls attrs => resumptionMessage cls attrs

/-- Resolution of the effective starting point, graph.py lines 197-207.

`persistence` is `none` when the argument was `None`; otherwise it carries
the result of `persistence.load_next()` (`none` when no snapshot exists).
`BaseStatePersistence` implementations define neither `__bool__` nor
`__len__`, so a supplied persistence object is always truthy and
`if persistence:` coincides with the `none` test.

The source selects the effective node and state with Python `or`
(`start_node = from_node or snapshot.node`, `state = state or
snapshot.state`): the left operand wins only when it is truthy.  Since the
node and state types are generic, their truthiness is a parameter
(`nodeTruthy`, `stateTruthy`); Python `None` is falsy, hence the `none`
cases fall through to the snapshot's values. -/
def resolveStart {σ : Type} (stateTruthy : σ → Bool) (nodeTruthy : Node → Bool)
    (persistence : Option (Option (Snapshot σ)))
    (from_node : Option Node) (state : Option σ) :
    Except ResumeError (Node × Option σ) :=
  match persistence, from_node with
  | none, none => .error (.configuration configurationMessage)
  | none, some n => .ok (n, state)
  | some loadNextResult, _ =>
    match loadNextResult with
    | none => .error (.recovery recoveryMessage)
    | some snapshot =>
      let start_node : Node :=
        match from_node with
        | some n => if nodeTruthy n then n else snapshot.node
        | none => snapshot.node
      let st : σ :=
        match state with
        | some s => if stateTruthy s then s else snapshot.state
        | none => snapshot.state
      .ok (start_node.set_snapshot_id snapshot.id, some st)

/-- The unset-attribute validation of the effective starting node,
graph.py lines 209-217: only interrupt nodes are checked, and the raised
error names the offending attributes. -/
def checkUnset (start_node : Node) : Except ResumeError Unit :=
  if start_node.isInterrupt then
    let u := start_node.unset_attrs
    if u.isEmpty then .ok () else .error (.resumption start_node.name u)
  else .ok ()

/-- Result of one engine step (`graph_run.next`): either the next node to
execute together with the updated run state, or the terminal `End` with
the run output and final state. -/
inductive StepResult (τ ω : Type) where
  | next (n : Node) (s : τ)
  | finish (o : ω) (s : τ)
  deriving DecidableEq, Repr

/-- Outcome of the control loop. -/
inductive Outcome (τ ω : Type) where
  | interrupted (n : Node) (s : τ)
  | finished (o : ω) (s : τ)
  deriving DecidableEq, Repr

/-- The control loop of `resume`, graph.py lines 219-236.  `step` is the
engine's single-step primitive: it invokes the current node's `run`
method and yields the next node (or `End`).  Each iteration steps the
current node; if the yielded node is an `InterruptNode` the loop returns
immediately without stepping it; on `End` it returns the finished
outcome.  The returned list is the trace of nodes on which `step` was
invoked (i.e. whose `run` method ran), in order.  `fuel` bounds the number
of iterations; `none` models a run that has not terminated within it. -/
def resumeLoop {τ ω : Type} (step : Node → τ → StepResult τ ω) :
    Node → τ → Nat → Option (Outcome τ ω × List Node)
  | _, _, 0 => none
  | node, st, fuel + 1 =>
    match step node st with
    | .next n s =>
      if n.isInterrupt then some (.interrupted n s, [node])
      else
        match resumeLoop step n s fuel with
        | none => none
        | some (o, t) => some (o, node :: t)
    | .finish o s => some (.finished o s, [node])

/-- `GraphResumeResult` (graph.py lines 26-87), restricted to the fields the
specified behavior observes (`persistence` and `traceparent` are opaque
pass-throughs and are omitted). -/
structure GraphResumeResult (τ ω : Type) where
  state : τ
  output : Option ω
  interrupt_node : Option Node
  deriving DecidableEq, Repr

/-- `GraphResumeResult.__init__` (graph.py lines 58-73): stores the given
attributes.  The source constructor performs no validation of the
`output` / `interrupt_node` combination. -/
def GraphResumeResult.init {τ ω : Type} (state : τ) (output : Option ω)
    (interrupt_node : Option Node) : GraphResumeResult τ ω :=
  { state := state, output := output, interrupt_node := interrupt_node }

/-- `GraphResumeResult.is_interrupted` (graph.py lines 75-80):
`interrupt_node is not None`. -/
def GraphResumeResult.is_interrupted {τ ω : Type} (r : GraphResumeResult τ ω) : Bool :=
  r.interrupt_node.isSome

/-- `GraphResumeResult.is_finished` (graph.py lines 82-87):
`interrupt_node is None`. -/
def GraphResumeResult.is_finished {τ ω : Type} (r : GraphResumeResult τ ω) : Bool :=
  r.interrupt_node.isNone

/-- The two `GraphResumeResult` construction sites of `resume`
(graph.py lines 229-234 and 241-246). -/
def outcomeResult {τ ω : Type} (o : Outcome τ ω) : GraphResumeResult τ ω :=
  match o with
  | .interrupted n s => GraphResumeResult.init s none (some n)
  | .finished out s => GraphResumeResult.init s (some out) none

/-- `InterruptibleGraph.resume`, graph.py lines 163-246 (the `infer_name`
naming side effect and the unused-in-this-layer `deps` argument are
omitted).  Returns the raised error, or `some` result together with the
trace of nodes whose `run` was invoked, or `none` inside `ok` when the
loop did not terminate within `fuel` iterations. -/
def resume {σ ω : Type} (stateTruthy : σ → Bool) (nodeTruthy : Node → Bool)
    (step : Node → Option σ → StepResult (Option σ) ω)
    (persistence : Option (Option (Snapshot σ)))
    (from_node : Option Node) (state : Option σ) (fuel : Nat) :
    Except ResumeError (Option (GraphResumeResult (Option σ) ω × List Node)) :=
  match resolveStart stateTruthy nodeTruthy persistence from_node state with
  | .error e => .error e
  | .ok (start_node, st) =>
    match checkUnset start_node with
    | .error e => .error e
    | .ok _ =>
      match resumeLoop step start_node st fuel with
      | none => .ok none
      | some (o, t) => .ok (some (outcomeResult o, t))

/-- A node-definition record as produced by the engine's
`BaseNode.get_node_def`: the class name and the keys of
`next_node_edges` (the declared successor node types). -/
structure NodeDef where
  typeName : String
  next_node_edges : List String
  deriving DecidableEq, Repr

/-- `GraphSetupError` raised during node-definition validation, carrying the
offending class and the successors found (base_interrupt.py lines 60-62). -/
inductive SetupError where
  | setup (cls : String) (edges : List String)
  deriving DecidableEq, Repr

/-- The engine's `BaseNode.get_node_def` (external `pydantic_graph` code):
parses the return type hints into a node definition and imposes no
successor-count restriction; the parse result is the argument. -/
def baseGetNodeDef (d : NodeDef) : Except SetupError NodeDef := .ok d

/-- `BaseInterrupt.get_node_def` (base_interrupt.py lines 52-63): delegates
to `super().get_node_def` and raises `GraphSetupError` when the node
declares more than one successor edge. -/
def BaseInterrupt.get_node_def (d : NodeDef) : Except SetupError NodeDef :=
  match baseGetNodeDef d with
  | .error e => .error e
  | .ok nd =>
    if nd.next_node_edges.length > 1 then
      .error (.setup nd.typeName nd.next_node_edges)
    else .ok nd

/-- `InterruptNode` (nodes.py lines 22-59) subclasses `BaseNode` directly
and declares no `get_node_def` override, so it inherits the engine's
unrestricted one.  (`BaseInterrupt` is defined in the repository but
`InterruptNode` does not derive from it and no module imports it.) -/
def InterruptNode.get_node_def (d : NodeDef) : Except SetupError NodeDef :=
  baseGetNodeDef d

/-- `Graph.__init__`'s per-node collection of node definitions (engine
side): graph construction fails as soon as one node's `get_node_def`
raises. -/
def graphNodeDefs (ds : List (Except SetupError NodeDef)) :
    Except SetupError (List NodeDef) :=
  match ds with
  | [] => .ok []
  | d :: rest =>
    match d with
    | .error e => .error e
    | .ok nd =>
      match graphNodeDefs rest with
      | .error e => .error e
      | .ok nds => .ok (nd :: nds)

/-!  Concrete instances mirroring the repository's test fixtures
(`tests/fixtures.py`): an ordinary `Greet` node, the `WaitForName`
interrupt node with its `user_name` field, and a small engine step.  The
run state is an `Int` (Python integer truthiness: zero is falsy). -/

/-- Truthiness of a Python `int` state. -/
def intTruthy : Int → Bool := fun n => decide (n ≠ 0)

/-- Truthiness of node instances: dataclasses defining neither `__bool__`
nor `__len__` are always truthy. -/
def dataclassTruthy : Node → Bool := fun _ => true

/-- The ordinary `Greet` node of the fixtures. -/
def greetEx : Node :=
  { name := "Greet", isInterrupt := false, isDataclass := true,
    fields := [], dict := [], snapshotId := none }

/-- `WaitForName()` with its `user_name` field still holding the sentinel. -/
def waitUnset : Node :=
  { name := "WaitForName", isInterrupt := true, isDataclass := true,
    fields := [("user_name", Value.unset)],
    dict := [("user_name", Value.unset)], snapshotId := none }

/-- `WaitForName(user_name="Bobby")`: fully populated. -/
def waitFilled : Node :=
  { name := "WaitForName", isInterrupt := true, isDataclass := true,
    fields := [("user_name", Value.str "Bobby")],
    dict := [("user_name", Value.str "Bobby")], snapshotId := none }

/-- An interrupt-node instance mixing a sentinel field with fields holding
`None`, an empty list and an ordinary string. -/
def mixedInst : Node :=
  { name := "WaitForAll", isInterrupt := true, isDataclass := true,
    fields := [("a", Value.unset), ("b", Value.pynone),
               ("c", Value.listLen 0), ("d", Value.str "x")],
    dict := [("a", Value.unset), ("b", Value.pynone),
             ("c", Value.listLen 0), ("d", Value.str "x")],
    snapshotId := none }

/-- Engine step of the fixture graph: stepping the ordinary node yields the
unpopulated `WaitForName`; stepping an interrupt node runs its `run`
method, which here ends the run. -/
def stepGW : Node → Option Int → StepResult (Option Int) Int := fun nd s =>
  if nd.isInterrupt then .finish 0 s else .next waitUnset s

/-- Engine step that ends the run at once whatever the current node is. -/
def stepFinish : Node → Option Int → StepResult (Option Int) Int :=
  fun _ s => .finish 7 s

/-- A snapshot recording `Greet` as the next node, state `5`, id `snap-1`. -/
def snapEx : Snapshot Int := { node := greetEx, state := 5, id := "snap-1" }

/-- A node definition declaring two successor edges. -/
def forkDef : NodeDef := { typeName := "Fork", next_node_edges := ["A", "B"] }

/-!  Helper lemmas shared by the claim theorems. -/

/-- Every trace produced by the loop starts with the starting node, and
every node stepped after it was yielded by a step that checked it was not
an interrupt node. -/
theorem resumeLoop_trace {τ ω : Type} (step : Node → τ → StepResult τ ω) :
    ∀ (fuel : Nat) (node : Node) (st : τ) (o : Outcome τ ω) (t : List Node),
      resumeLoop step node st fuel = some (o, t) →
      ∃ rest, t = node :: rest ∧ ∀ m ∈ rest, m.isInterrupt = false := by
  intro fuel
  induction fuel with
  | zero => intro node st o t h; simp [resumeLoop] at h
  | succ k ih =>
    intro node st o t h
    rw [resumeLoop] at h
    cases hs : step node st with
    | next n s =>
      rw [hs] at h
      by_cases hi : n.isInterrupt = true
      · simp [hi] at h
        exact ⟨[], by simp [h.2.symm]⟩
      · simp [hi] at h
        cases hr : resumeLoop step n s k with
        | none => rw [hr] at h; simp at h
        | some q =>
          obtain ⟨o', t'⟩ := q
          rw [hr] at h
          simp at h
          obtain ⟨rest', hrest', hall⟩ := ih n s o' t' hr
          refine ⟨t', by simp [h.2.symm], ?_⟩
          intro m hm
          rw [hrest'] at hm
          rcases List.mem_cons.mp hm with hmn | hmr
          · rw [hmn]; simpa using hi
          · exact hall m hmr
    | finish o' s =>
      rw [hs] at h
      simp at h
      exact ⟨[], by simp [h.2.symm]⟩

/-- Inversion of a successful `resume`: the starting point resolved, the
unset check passed, and the loop produced the outcome and the trace. -/
theorem resume_ok_inv {σ ω : Type} (stateTruthy : σ → Bool) (nodeTruthy : Node → Bool)
    (step : Node → Option σ → StepResult (Option σ) ω)
    (persistence : Option (Option (Snapshot σ)))
    (from_node : Option Node) (state : Option σ) (fuel : Nat)
    (res : GraphResumeResult (Option σ) ω) (t : List Node)
    (h : resume stateTruthy nodeTruthy step persistence from_node state fuel =
      .ok (some (res, t))) :
    ∃ start st0 o,
      resolveStart stateTruthy nodeTruthy persistence from_node state = .ok (start, st0) ∧
      checkUnset start = .ok () ∧
      resumeLoop step start st0 fuel = some (o, t) ∧
      res = outcomeResult o := by
  unfold resume at h
  split at h
  · simp at h
  · next start st0 heq =>
    split at h
    · simp at h
    · next u heq2 =>
      split at h
      · simp at h
      · next o tr heq3 =>
        simp at h
        refine ⟨start, st0, o, heq, ?_, ?_, ?_⟩
        · cases u; exact heq2
        · rw [heq3, h.2]
        · exact h.1.symm

/-- With name-distinct entries, one attribute cannot hold two values. -/
theorem keys_nodup_eq {l : List (String × Value)}
    (h : (l.map Prod.fst).Nodup) {a : String} {v w : Value}
    (hv : (a, v) ∈ l) (hw : (a, w) ∈ l) : v = w := by
  induction l with
  | nil => simp at hv
  | cons p rest ih =>
    rw [List.map_cons, List.nodup_cons] at h
    rcases List.mem_cons.mp hv with hv1 | hv2 <;>
      rcases List.mem_cons.mp hw with hw1 | hw2
    · exact (Prod.ext_iff.mp (hv1.trans hw1.symm)).2
    · exfalso
      apply h.1
      rw [← hv1]
      exact List.mem_map.mpr ⟨(a, w), hw2, rfl⟩
    · exfalso
      apply h.1
      rw [← hw1]
      exact List.mem_map.mpr ⟨(a, v), hv2, rfl⟩
    · exact ih h.2 hv2 hw2

/-- Membership in the filtered-name list used by `unset_attrs`. -/
theorem mem_unset_filter {l : List (String × Value)} {a : String} :
    a ∈ (l.filter fun p => p.2 == Value.unset).map Prod.fst ↔
      (a, Value.unset) ∈ l := by
  constructor
  · intro h
    obtain ⟨p, hp, hpa⟩ := List.mem_map.mp h
    obtain ⟨hpl, hpv⟩ := List.mem_filter.mp hp
    have hv : p.2 = Value.unset := by simpa using hpv
    have : p = (a, Value.unset) := by
      cases p; simp at hpa hv; simp [hpa, hv]
    rwa [this] at hpl
  · intro h
    exact List.mem_map.mpr ⟨(a, Value.unset), List.mem_filter.mpr ⟨h, by simp⟩, rfl⟩

/-- Unfolding of `resume` once the starting point has resolved. -/
theorem resume_of_resolve_ok {σ ω : Type} (stateTruthy : σ → Bool)
    (nodeTruthy : Node → Bool) (step : Node → Option σ → StepResult (Option σ) ω)
    (persistence : Option (Option (Snapshot σ))) (from_node : Option Node)
    (state : Option σ) (fuel : Nat) (start : Node) (st0 : Option σ)
    (h1 : resolveStart stateTruthy nodeTruthy persistence from_node state = .ok (start, st0)) :
    resume stateTruthy nodeTruthy step persistence from_node state fuel =
      (match checkUnset start with
       | .error e => .error e
       | .ok _ =>
         match resumeLoop step start st0 fuel with
         | none => .ok none
         | some (o, t) => .ok (some (outcomeResult o, t))) := by
  unfold resume
  rw [h1]

/-- C1: whenever an engine step yields an `InterruptNode` instance as the
next node to execute, the control loop stops immediately and returns the
interrupted outcome carrying that exact instance and the current run
state; the trace of nodes whose `run` method was invoked consists of the
node just stepped only, and the yielded interrupt node is not among
them. -/
theorem loop_stops_at_interrupt {τ ω : Type} (step : Node → τ → StepResult τ ω)
    (node : Node) (st : τ) (n : Node) (s : τ) (fuel : Nat)
    (h1 : step node st = .next n s) (h2 : n.isInterrupt = true)
    (h3 : node.isInterrupt = false) :
    resumeLoop step node st (fuel + 1) = some (.interrupted n s, [node]) ∧
    n ∉ ([node] : List Node) := by
  constructor
  · rw [resumeLoop, h1]
    simp [h2]
  · intro hmem
    rw [List.mem_singleton] at hmem
    rw [hmem, h3] at h2
    exact Bool.noConfusion h2

/-- Witness for C1 on the fixture graph: stepping `Greet` yields the
`WaitForName` interrupt node, and the loop stops there at once. -/
theorem loop_stops_at_interrupt_witness :
    resumeLoop stepGW greetEx (some (1 : Int)) (0 + 1) =
      some (.interrupted waitUnset (some 1), [greetEx]) ∧
    waitUnset ∉ ([greetEx] : List Node) :=
  loop_stops_at_interrupt stepGW greetEx (some 1) waitUnset (some 1) 0 rfl rfl rfl

/-- C7: `is_interrupted` and `is_finished` are never both true and never
both false; `is_finished` is the negation of `is_interrupted`, and
`is_interrupted` holds exactly when an interrupt node is present. -/
theorem is_interrupted_is_finished_exclusive {τ ω : Type}
    (r : GraphResumeResult τ ω) :
    (r.is_interrupted && r.is_finished) = false ∧
    (r.is_interrupted || r.is_finished) = true ∧
    r.is_finished = !r.is_interrupted ∧
    r.is_interrupted = r.interrupt_node.isSome := by
  cases hr : r.interrupt_node <;>
    simp [GraphResumeResult.is_interrupted, GraphResumeResult.is_finished, hr]

/-- C8: `unset_attrs` reports exactly the attribute names currently holding
the `UNSET` sentinel, read from the declared fields for dataclass
instances and from the instance attribute dictionary otherwise; an
attribute holding any other value — in particular `None` or an empty
collection — is never reported. -/
theorem unset_attrs_characterization (inst : Node) (a : String)
    (hnd : (inst.attrSource.map Prod.fst).Nodup) :
    (a ∈ inst.unset_attrs ↔ (a, Value.unset) ∈ inst.attrSource) ∧
    (∀ v, (a, v) ∈ inst.attrSource → v ≠ Value.unset → a ∉ inst.unset_attrs) := by
  have hmain : a ∈ inst.unset_attrs ↔ (a, Value.unset) ∈ inst.attrSource := by
    unfold Node.unset_attrs Node.attrSource
    by_cases hd : inst.isDataclass = true
    · rw [if_pos hd, if_pos hd]
      exact mem_unset_filter
    · rw [if_neg hd, if_neg hd]
      exact mem_unset_filter
  refine ⟨hmain, ?_⟩
  intro v hv hne hmem
  exact hne (keys_nodup_eq hnd hv (hmain.mp hmem))

/-- Witness for C8 on an instance mixing a sentinel field with `None`,
empty-list and string fields. -/
theorem unset_attrs_characterization_witness :
    "a" ∈ mixedInst.unset_attrs ↔ ("a", Value.unset) ∈ mixedInst.attrSource :=
  (unset_attrs_characterization mixedInst "a" (by decide)).1

/-- C9: when both `persistence` and `from_node` are omitted, `resume` fails
with the configuration error, whatever the engine step, the state and the
fuel — so before any snapshot is consulted and before any step is
taken. -/
theorem resume_requires_source {σ ω : Type} (stateTruthy : σ → Bool)
    (nodeTruthy : Node → Bool) (step : Node → Option σ → StepResult (Option σ) ω)
    (state : Option σ) (fuel : Nat) :
    resume stateTruthy nodeTruthy step (none : Option (Option (Snapshot σ)))
        none state fuel =
      .error (.configuration configurationMessage) := rfl

/-- C2: when the effective starting node is an `InterruptNode` with a
nonempty list of sentinel-valued attributes, `resume` fails with the
resumption error naming exactly those attributes, whatever the engine
step and the fuel — so before any step of the run is taken. -/
theorem resume_unset_attrs_error {σ ω : Type} (stateTruthy : σ → Bool)
    (nodeTruthy : Node → Bool) (step : Node → Option σ → StepResult (Option σ) ω)
    (persistence : Option (Option (Snapshot σ))) (from_node : Option Node)
    (state : Option σ) (fuel : Nat) (start : Node) (st0 : Option σ)
    (h1 : resolveStart stateTruthy nodeTruthy persistence from_node state = .ok (start, st0))
    (h2 : start.isInterrupt = true)
    (h3 : start.unset_attrs ≠ []) :
    resume stateTruthy nodeTruthy step persistence from_node state fuel =
      .error (.resumption start.name start.unset_attrs) := by
  have hcu : checkUnset start = .error (.resumption start.name start.unset_attrs) := by
    cases hu : start.unset_attrs with
    | nil => exact absurd hu h3
    | cons x xs => simp [checkUnset, h2, hu]
  rw [resume_of_resolve_ok stateTruthy nodeTruthy step persistence from_node state
    fuel start st0 h1, hcu]

/-- Witness for C2: resuming directly from the unpopulated `WaitForName`
fails with the resumption error naming `user_name`. -/
theorem resume_unset_attrs_error_witness :
    resume intTruthy dataclassTruthy stepGW
        (none : Option (Option (Snapshot Int))) (some waitUnset) (some 1) 5 =
      .error (.resumption "WaitForName" ["user_name"]) :=
  resume_unset_attrs_error intTruthy dataclassTruthy stepGW none (some waitUnset)
    (some 1) 5 waitUnset (some 1) rfl rfl (by decide)

/-- C10: the unset-attribute validation applies only to the effective
starting node.  When the loop intercepts an `InterruptNode` mid-run
(from an ordinary starting node), it returns the interrupted result
carrying that node without any unset-attribute check: the result is
produced even though the node still has sentinel-valued attributes, and
no error is raised. -/
theorem midrun_interrupt_no_unset_check {σ ω : Type} (stateTruthy : σ → Bool)
    (nodeTruthy : Node → Bool) (step : Node → Option σ → StepResult (Option σ) ω)
    (persistence : Option (Option (Snapshot σ))) (from_node : Option Node)
    (state : Option σ) (fuel : Nat) (start n : Node) (st0 s : Option σ)
    (h1 : resolveStart stateTruthy nodeTruthy persistence from_node state = .ok (start, st0))
    (h2 : start.isInterrupt = false)
    (h3 : step start st0 = .next n s)
    (h4 : n.isInterrupt = true)
    (h5 : n.unset_attrs ≠ []) :
    resume stateTruthy nodeTruthy step persistence from_node state (fuel + 1) =
      .ok (some (GraphResumeResult.init s none (some n), [start])) ∧
    n.unset_attrs ≠ [] := by
  refine ⟨?_, h5⟩
  have hcu : checkUnset start = .ok () := by
    simp [checkUnset, h2]
  have hloop : resumeLoop step start st0 (fuel + 1) =
      some (.interrupted n s, [start]) := by
    rw [resumeLoop, h3]
    simp [h4]
  rw [resume_of_resolve_ok stateTruthy nodeTruthy step persistence from_node state
    (fuel + 1) start st0 h1, hcu, hloop]
  rfl

/-- Witness for C10: the first resume call of the fixture run returns the
interrupted result carrying `WaitForName` although its `user_name`
attribute still holds the sentinel. -/
theorem midrun_interrupt_no_unset_check_witness :
    resume intTruthy dataclassTruthy stepGW
        (none : Option (Option (Snapshot Int))) (some greetEx) (some 1) (4 + 1) =
      .ok (some (GraphResumeResult.init (some 1) none (some waitUnset), [greetEx])) ∧
    waitUnset.unset_attrs ≠ [] :=
  midrun_interrupt_no_unset_check intTruthy dataclassTruthy stepGW none
    (some greetEx) (some 1) 4 greetEx waitUnset (some 1) (some 1) rfl rfl rfl rfl
    (by decide)

/-- C3 counterexample: resuming with a fully populated `WaitForName` as the
starting node makes the loop invoke that interrupt node's `run` method
(the trace of stepped nodes is exactly that node) and the call returns an
ordinary finished result — no error is raised and nothing propagates. -/
theorem interrupt_run_invoked_counterexample :
    resume intTruthy dataclassTruthy stepFinish
        (none : Option (Option (Snapshot Int))) (some waitFilled) (some 1) 3 =
      .ok (some (GraphResumeResult.init (some 1) (some 7) none, [waitFilled])) ∧
    waitFilled.isInterrupt = true :=
  ⟨rfl, rfl⟩

/-- C3 amended: the only node whose `run` method the loop may invoke while
being an `InterruptNode` is the effective starting node itself — every
node stepped after the first is an ordinary node, since the loop
intercepts interrupt nodes before stepping them. -/
theorem only_start_interrupt_stepped {σ ω : Type} (stateTruthy : σ → Bool)
    (nodeTruthy : Node → Bool) (step : Node → Option σ → StepResult (Option σ) ω)
    (persistence : Option (Option (Snapshot σ))) (from_node : Option Node)
    (state : Option σ) (fuel : Nat) (start : Node) (st0 : Option σ)
    (res : GraphResumeResult (Option σ) ω) (t : List Node)
    (h0 : resolveStart stateTruthy nodeTruthy persistence from_node state = .ok (start, st0))
    (h : resume stateTruthy nodeTruthy step persistence from_node state fuel =
      .ok (some (res, t))) :
    t.head? = some start ∧ ∀ m ∈ t.tail, m.isInterrupt = false := by
  obtain ⟨start', st0', o, h1, h2, h3, h4⟩ :=
    resume_ok_inv stateTruthy nodeTruthy step persistence from_node state fuel res t h
  rw [h0] at h1
  simp only [Except.ok.injEq, Prod.mk.injEq] at h1
  obtain ⟨he1, he2⟩ := h1
  subst he1
  subst he2
  obtain ⟨rest, hrest, hall⟩ := resumeLoop_trace step fuel start st0 o t h3
  subst hrest
  exact ⟨rfl, hall⟩

/-- Witness for the C3 amended theorem on the populated-`WaitForName`
scenario. -/
theorem only_start_interrupt_stepped_witness :
    ([waitFilled] : List Node).head? = some waitFilled :=
  (only_start_interrupt_stepped intTruthy dataclassTruthy stepFinish none
    (some waitFilled) (some 1) 3 waitFilled (some 1)
    (GraphResumeResult.init (some 1) (some 7) none) [waitFilled] rfl rfl).1

/-- C4 counterexample: a `InterruptNode` subclass declaring two successor
edges passes node-definition validation unchanged, and a graph built from
it constructs without any setup error, even though it has more than one
successor. -/
theorem interrupt_node_def_no_check_counterexample :
    InterruptNode.get_node_def forkDef = .ok forkDef ∧
    graphNodeDefs [InterruptNode.get_node_def forkDef] = .ok [forkDef] ∧
    forkDef.next_node_edges.length > 1 :=
  ⟨rfl, rfl, by decide⟩

/-- C4 amended: the single-successor validation lives only on
`BaseInterrupt` (a base class the exported `InterruptNode` does not
derive from): `BaseInterrupt.get_node_def` raises the setup error naming
the offending type and its successors whenever more than one successor
edge is declared, while `InterruptNode.get_node_def` accepts any
definition. -/
theorem base_interrupt_single_successor (d : NodeDef)
    (h : d.next_node_edges.length > 1) :
    BaseInterrupt.get_node_def d = .error (.setup d.typeName d.next_node_edges) ∧
    InterruptNode.get_node_def d = .ok d := by
  constructor
  · unfold BaseInterrupt.get_node_def baseGetNodeDef
    simp [h]
  · rfl

/-- Witness for the C4 amended theorem at the two-successor definition. -/
theorem base_interrupt_single_successor_witness :
    BaseInterrupt.get_node_def forkDef = .error (.setup "Fork" ["A", "B"]) ∧
    InterruptNode.get_node_def forkDef = .ok forkDef :=
  base_interrupt_single_successor forkDef (by decide)

/-- C5 counterexample: with persistence supplied and a snapshot present, an
explicitly supplied but falsy state (the Python integer `0`) does not
become the effective starting state — the snapshot's state (`5`) wins,
because the source selects with `state or snapshot.state`. -/
theorem falsy_state_override_counterexample :
    resolveStart intTruthy dataclassTruthy (some (some snapEx)) (some greetEx)
        (some 0) =
      .ok (greetEx.set_snapshot_id "snap-1", some 5) ∧
    (some (5 : Int)) ≠ (some (0 : Int)) :=
  ⟨rfl, by decide⟩

/-- C5 amended: on the persistence path the overrides follow Python
truthiness.  A supplied `from_node` becomes the effective starting node
(stamped with the snapshot id) only when truthy, otherwise the snapshot's
node is used; a supplied `state` becomes the effective starting state
only when truthy, otherwise the snapshot's state is used; omitted
arguments always fall back to the snapshot. -/
theorem resolve_start_truthiness {σ : Type} (stateTruthy : σ → Bool)
    (nodeTruthy : Node → Bool) (snap : Snapshot σ) (from_node : Option Node)
    (state : Option σ) (startN : Node) (stS : Option σ)
    (h : resolveStart stateTruthy nodeTruthy (some (some snap)) from_node state =
      .ok (startN, stS)) :
    (∀ n, from_node = some n → nodeTruthy n = true →
      startN = n.set_snapshot_id snap.id) ∧
    (∀ n, from_node = some n → nodeTruthy n = false →
      startN = snap.node.set_snapshot_id snap.id) ∧
    (from_node = none → startN = snap.node.set_snapshot_id snap.id) ∧
    (∀ s0, state = some s0 → stateTruthy s0 = true → stS = some s0) ∧
    (∀ s0, state = some s0 → stateTruthy s0 = false → stS = some snap.state) ∧
    (state = none → stS = some snap.state) := by
  unfold resolveStart at h
  refine ⟨?_, ?_, ?_, ?_, ?_, ?_⟩
  · intro n hn ht
    subst hn
    simp only [ht, if_true] at h
    simp only [Except.ok.injEq, Prod.mk.injEq] at h
    exact h.1.symm
  · intro n hn ht
    subst hn
    simp only [ht, if_false, Bool.false_eq_true] at h
    simp only [Except.ok.injEq, Prod.mk.injEq] at h
    exact h.1.symm
  · intro hn
    subst hn
    simp only [Except.ok.injEq, Prod.mk.injEq] at h
    exact h.1.symm
  · intro s0 hs ht
    subst hs
    simp only [ht, if_true] at h
    simp only [Except.ok.injEq, Prod.mk.injEq] at h
    exact h.2.symm
  · intro s0 hs ht
    subst hs
    simp only [ht, if_false, Bool.false_eq_true] at h
    simp only [Except.ok.injEq, Prod.mk.injEq] at h
    exact h.2.symm
  · intro hs
    subst hs
    simp only [Except.ok.injEq, Prod.mk.injEq] at h
    exact h.2.symm

/-- Witness for the C5 amended theorem: the supplied falsy state `0` is
replaced by the snapshot's state. -/
theorem resolve_start_truthiness_witness :
    (some (5 : Int)) = some snapEx.state :=
  ((resolve_start_truthiness intTruthy dataclassTruthy snapEx (some greetEx)
      (some 0) (greetEx.set_snapshot_id "snap-1") (some 5) rfl).2.2.2.2.1)
    0 rfl rfl

/-- C6 counterexample: the `GraphResumeResult` constructor accepts both an
output and an interrupt node, and equally accepts neither — no
construction-time error exists. -/
theorem result_both_populated_counterexample :
    (GraphResumeResult.init (some (0 : Int)) (some (1 : Int))
        (some greetEx)).output.isSome = true ∧
    (GraphResumeResult.init (some (0 : Int)) (some (1 : Int))
        (some greetEx)).interrupt_node.isSome = true ∧
    (GraphResumeResult.init (some (0 : Int)) (none : Option Int)
        (none : Option Node)).output.isSome = false ∧
    (GraphResumeResult.init (some (0 : Int)) (none : Option Int)
        (none : Option Node)).interrupt_node.isSome = false :=
  ⟨rfl, rfl, rfl, rfl⟩

/-- C6 amended: the constructor itself validates nothing, but every result
that `resume` constructs populates exactly one of output and interrupt
node: interrupted results carry an interrupt node and no output, finished
results carry an output and no interrupt node. -/
theorem resume_result_exactly_one {σ ω : Type} (stateTruthy : σ → Bool)
    (nodeTruthy : Node → Bool) (step : Node → Option σ → StepResult (Option σ) ω)
    (persistence : Option (Option (Snapshot σ))) (from_node : Option Node)
    (state : Option σ) (fuel : Nat)
    (res : GraphResumeResult (Option σ) ω) (t : List Node)
    (h : resume stateTruthy nodeTruthy step persistence from_node state fuel =
      .ok (some (res, t))) :
    (res.output.isSome = true ∧ res.interrupt_node = none) ∨
    (res.output = none ∧ res.interrupt_node.isSome = true) := by
  obtain ⟨start, st0, o, h1, h2, h3, h4⟩ :=
    resume_ok_inv stateTruthy nodeTruthy step persistence from_node state fuel res t h
  subst h4
  cases o with
  | interrupted n s =>
    right
    simp [outcomeResult, GraphResumeResult.init]
  | finished out s =>
    left
    simp [outcomeResult, GraphResumeResult.init]

/-- Witness for the C6 amended theorem on the finished fixture run. -/
theorem resume_result_exactly_one_witness :
    ((GraphResumeResult.init (some (1 : Int)) (some (7 : Int))
        (none : Option Node)).output.isSome = true ∧
      (GraphResumeResult.init (some (1 : Int)) (some (7 : Int))
        (none : Option Node)).interrupt_node = none) ∨
    ((GraphResumeResult.init (some (1 : Int)) (some (7 : Int))
        (none : Option Node)).output = none ∧
      (GraphResumeResult.init (some (1 : Int)) (some (7 : Int))
        (none : Option Node)).interrupt_node.isSome = true) :=
  resume_result_exactly_one intTruthy dataclassTruthy stepFinish none
    (some waitFilled) (some 1) 3
    (GraphResumeResult.init (some 1) (some 7) none) [waitFilled] rfl

end PGI
